import Mathlib

/-!
Shallow embedding of the booking/invoicing façade of the DoggyDaycare
repository (`src/doggydaycare/daycare/system.py`).

Modelling conventions:
* money amounts are exact rationals (`ℚ`); Python's `round(x, 2)` is modelled
  by `round2`, round-half-to-even at two decimal places;
* timestamps and dates are integers (`ℤ`), preserving only their ordering,
  which is all the source compares them by (ISO-8601 strings compare
  lexicographically, i.e. chronologically);
* each SQL table relevant to the claims is a list of rows inside
  `DaycareState`; `AUTOINCREMENT` primary keys are explicit counters;
* a façade call that raises `ValidationError` is `Except.error msg`; since
  every call runs inside one transaction committed at the end, an error
  leaves the store unchanged, which the embedding renders by returning no
  successor state on `Except.error`.
-/

namespace DoggyDaycare

/-- `GST_RATE = 0.10` from `system.py`. -/
def GST_RATE : ℚ := 1 / 10

/-- Round a rational to the nearest integer, halves to even
(the semantics of Python's builtin `round`). -/
def roundHalfEven (q : ℚ) : ℤ :=
  let f := ⌊q⌋
  let r := q - (f : ℚ)
  if r < 1 / 2 then f
  else if 1 / 2 < r then f + 1
  else if f % 2 = 0 then f else f + 1

/-- Python's `round(x, 2)`: round to two decimal places, halves to even. -/
def round2 (q : ℚ) : ℚ := (roundHalfEven (q * 100) : ℚ) / 100

/-- A rational is a whole number of cents (an exact two-decimal amount). -/
def isCents (q : ℚ) : Prop := (q * 100).den = 1

instance (q : ℚ) : Decidable (isCents q) := by
  unfold isCents; infer_instance

/-- One `invoice_line_items` row. -/
structure LineItem where
  description : String
  quantity : ℚ
  unit_price : ℚ
  gst_rate : ℚ
  total : ℚ
  deriving DecidableEq

/-- One `invoices` row, with its line items and payment amounts attached
(the shape `get_invoice` returns). -/
structure Invoice where
  booking_id : Nat
  client_id : Nat
  status : String
  subtotal : ℚ
  gst_amount : ℚ
  total : ℚ
  balance_due : ℚ
  line_items : List LineItem
  payments : List ℚ
  deriving DecidableEq

/-- An element of the `pet_prices` list built by `create_booking`:
the Python tuple `(description, price, taxable)`. -/
structure PetPrice where
  description : String
  price : ℚ
  taxable : Bool
  deriving DecidableEq

/-- An element of the `service_rows` list built by `create_booking`:
the dict `{description, price, quantity, gst_applicable}`. -/
structure ServiceRow where
  description : String
  price : ℚ
  quantity : Nat
  gst_applicable : Bool
  deriving DecidableEq

/-- `record_payment` (system.py lines 1281-1310), restricted to the invoice
it acts on: insert the payment row, set
`balance_due = round(balance_due - amount, 2)` and flip `status` to
`"paid"` when the new balance is `≤ 0`. -/
def record_payment (invoice : Invoice) (amount : ℚ) : Invoice :=
  let new_balance := round2 (invoice.balance_due - amount)
  let status := if new_balance ≤ 0 then "paid" else invoice.status
  { invoice with
      payments := invoice.payments ++ [amount]
      balance_due := new_balance
      status := status }

/-- `_create_invoice_for_booking` (system.py lines 687-771): aggregate the
pet lines and service lines into subtotal / GST / total (each rounded to two
decimals), materialise one line item per pet line and per service line, and
apply an optional deposit as an immediate payment. -/
def create_invoice_for_booking (booking_id client_id : Nat)
    (pet_prices : List PetPrice) (service_rows : List ServiceRow)
    (deposit_amount : ℚ) : Invoice :=
  let subtotal := (pet_prices.map (·.price)).sum +
    (service_rows.map (fun row => row.price * (row.quantity : ℚ))).sum
  let gstable_amount := ((pet_prices.filter (·.taxable)).map (·.price)).sum +
    ((service_rows.filter (·.gst_applicable)).map
      (fun row => row.price * (row.quantity : ℚ))).sum
  let gst_amount := round2 (gstable_amount * GST_RATE)
  let total := round2 (subtotal + gst_amount)
  let pet_items := pet_prices.map (fun p =>
    { description := p.description
      quantity := 1
      unit_price := round2 p.price
      gst_rate := if p.taxable then GST_RATE else 0
      total := round2 p.price : LineItem })
  let service_items := service_rows.map (fun row =>
    { description := row.description
      quantity := (row.quantity : ℚ)
      unit_price := row.price
      gst_rate := if row.gst_applicable then GST_RATE else 0
      total := round2 (row.price * (row.quantity : ℚ)) : LineItem })
  let invoice : Invoice :=
    { booking_id := booking_id
      client_id := client_id
      status := "issued"
      subtotal := round2 subtotal
      gst_amount := gst_amount
      total := total
      balance_due := round2 total
      line_items := pet_items ++ service_items
      payments := [] }
  if deposit_amount ≠ 0 then record_payment invoice deposit_amount else invoice

/-- One line item of the Xero export payload. -/
structure XeroLineItem where
  description : String
  quantity : ℚ
  unitAmount : ℚ
  taxAmount : ℚ
  deriving DecidableEq

/-- The parts of the Xero export payload computed from invoice data. -/
structure XeroInvoice where
  lineItems : List XeroLineItem
  amountDue : ℚ
  deriving DecidableEq

/-- `export_for_xero` (system.py lines 1647-1669): every exported line item
carries `TaxAmount = round(item.total * GST_RATE, 2)`, computed from the
fixed `GST_RATE` and not from the line's stored `gst_rate`. -/
def export_for_xero (invoice : Invoice) : XeroInvoice :=
  { lineItems := invoice.line_items.map (fun item =>
      { description := item.description
        quantity := item.quantity
        unitAmount := item.unit_price
        taxAmount := round2 (item.total * GST_RATE) })
    amountDue := invoice.balance_due }

/-- One `locations` row (the columns `create_booking` reads). -/
structure Location where
  id : Nat
  capacity : Nat
  base_daycare_rate : ℚ
  second_pet_discount : ℚ
  deriving DecidableEq

/-- One `pets` row (the columns `create_booking` reads). -/
structure Pet where
  id : Nat
  name : String
  deriving DecidableEq

/-- One `vaccination_records` row (the columns the booking path reads). -/
structure VaccinationRecord where
  pet_id : Nat
  expiry_date : ℤ
  deriving DecidableEq

/-- One `services` row (the columns `create_booking` reads). -/
structure Service where
  id : Nat
  name : String
  price : ℚ
  gst_applicable : Bool
  deriving DecidableEq

/-- One `bookings` row. -/
structure BookingRow where
  id : Nat
  location_id : Nat
  client_id : Nat
  start_time : ℤ
  end_time : ℤ
  status : String
  deriving DecidableEq

/-- One `booking_pets` row. -/
structure BookingPet where
  id : Nat
  booking_id : Nat
  pet_id : Nat
  package_id : Option Nat
  price : ℚ
  gst_applicable : Bool
  deriving DecidableEq

/-- One `booking_services` row. -/
structure BookingService where
  booking_id : Nat
  service_id : Nat
  quantity : Nat
  price : ℚ
  gst_applicable : Bool
  deriving DecidableEq

/-- One `waitlist` row. -/
structure WaitlistEntry where
  id : Nat
  location_id : Nat
  client_id : Nat
  pet_id : Nat
  requested_start : ℤ
  requested_end : ℤ
  deriving DecidableEq

/-- One `client_packages` row. -/
structure ClientPackage where
  id : Nat
  client_id : Nat
  remaining_credits : ℤ
  purchase_date : ℤ
  expiry_date : Option ℤ
  deriving DecidableEq

/-- One `checkins` row (the columns the check-in/out path reads). -/
structure Checkin where
  booking_pet_id : Nat
  check_in_time : ℤ
  check_out_time : Option ℤ
  deriving DecidableEq

/-- The relational store, restricted to the tables the claims touch.
`AUTOINCREMENT` keys are tracked by the `next_*` counters. -/
structure DaycareState where
  locations : List Location
  pets : List Pet
  vaccination_records : List VaccinationRecord
  services : List Service
  bookings : List BookingRow
  booking_pets : List BookingPet
  booking_services : List BookingService
  waitlist : List WaitlistEntry
  client_packages : List ClientPackage
  checkins : List Checkin
  invoices : List Invoice
  next_booking_id : Nat
  next_booking_pet_id : Nat
  next_waitlist_id : Nat
  deriving DecidableEq

def msgLocationNotFound : String := "Location not found"
def msgPetNotFound : String := "Pet not found"
def msgServiceNotFound : String := "Service not found"
def msgClientPackageNotFound : String := "Client package not found"
def msgEndBeforeStart : String := "End time must be after start time"
def msgMissingVaccination : String := "Pet is missing vaccination records"
def msgExpiredVaccination : String := "Pet has expired vaccinations"
def msgNoPackage : String := "Client has no available package credits"
def msgNoRemainingCredits : String := "Selected package has no remaining credits"
def msgNotEnoughCredits : String := "Package does not have enough credits"
def msgPetNotOnBooking : String := "Pet is not part of this booking"
def msgNotCheckedIn : String := "Pet has not been checked in"

/-- `get_location`: `SELECT * FROM locations WHERE id = ?`, raising
`ValidationError` when absent. -/
def get_location (s : DaycareState) (location_id : Nat) : Except String Location :=
  match s.locations.find? (fun l => l.id == location_id) with
  | some l => .ok l
  | none => .error msgLocationNotFound

/-- `get_pet`: `SELECT * FROM pets WHERE id = ?`. -/
def get_pet (s : DaycareState) (pet_id : Nat) : Except String Pet :=
  match s.pets.find? (fun p => p.id == pet_id) with
  | some p => .ok p
  | none => .error msgPetNotFound

/-- `get_service`: `SELECT * FROM services WHERE id = ?`. -/
def get_service (s : DaycareState) (service_id : Nat) : Except String Service :=
  match s.services.find? (fun v => v.id == service_id) with
  | some v => .ok v
  | none => .error msgServiceNotFound

/-- `get_client_package`: `SELECT * FROM client_packages WHERE id = ?`. -/
def get_client_package (s : DaycareState) (client_package_id : Nat) :
    Except String ClientPackage :=
  match s.client_packages.find? (fun p => p.id == client_package_id) with
  | some p => .ok p
  | none => .error msgClientPackageNotFound

/-- `SELECT MAX(expiry_date) FROM vaccination_records WHERE pet_id = ?`. -/
def latest_vaccination_expiry (s : DaycareState) (pet_id : Nat) : Option ℤ :=
  ((s.vaccination_records.filter (fun r => r.pet_id == pet_id)).map
    (·.expiry_date)).max?

/-- `_check_vaccination_valid` (system.py lines 653-666). -/
def check_vaccination_valid (s : DaycareState) (pet_id : Nat)
    (reference_date : ℤ) : Except String Unit :=
  match latest_vaccination_expiry s pet_id with
  | none => .error msgMissingVaccination
  | some expiry =>
      if expiry < reference_date then .error msgExpiredVaccination else .ok ()

/-- The `for pet_id in pet_ids: self._check_vaccination_valid(...)` loop of
`create_booking` (system.py lines 798-799). -/
def check_all_vaccinations (s : DaycareState) :
    List Nat → ℤ → Except String Unit
  | [], _ => .ok ()
  | pet_id :: rest, reference_date => do
      check_vaccination_valid s pet_id reference_date
      check_all_vaccinations s rest reference_date

/-- The per-booking filter of `_count_pets_booked`: same location, an active
status, and the half-open time intervals overlap. -/
def booking_counts (b : BookingRow) (location_id : Nat)
    (start_time end_time : ℤ) : Bool :=
  b.location_id == location_id &&
  (b.status == "reserved" || b.status == "confirmed" || b.status == "checked_in") &&
  !(decide (b.end_time ≤ start_time) || decide (b.start_time ≥ end_time))

/-- `_count_pets_booked` (system.py lines 668-685): count `booking_pets`
rows joined to an overlapping active booking at the location. -/
def count_pets_booked (s : DaycareState) (location_id : Nat)
    (start_time end_time : ℤ) : Nat :=
  (s.booking_pets.filter (fun bp =>
    match s.bookings.find? (fun b => b.id == bp.booking_id) with
    | some b => booking_counts b location_id start_time end_time
    | none => false)).length

/-- The `ORDER BY expiry_date ASC NULLS LAST, purchase_date ASC` comparison
used by `_redeem_package_credit`'s package query. -/
def package_order_lt (a b : ClientPackage) : Bool :=
  match a.expiry_date, b.expiry_date with
  | some x, some y =>
      decide (x < y) || (x == y && decide (a.purchase_date < b.purchase_date))
  | some _, none => true
  | none, some _ => false
  | none, none => decide (a.purchase_date < b.purchase_date)

/-- `WHERE client_id = ? AND (expiry_date IS NULL OR expiry_date >= today)`. -/
def package_eligible (p : ClientPackage) (client_id : Nat) (today : ℤ) : Bool :=
  p.client_id == client_id &&
  (match p.expiry_date with
   | none => true
   | some e => decide (today ≤ e))

/-- One accumulation step of taking the first minimal row under
`package_order_lt` (the `LIMIT 1` of an `ORDER BY`). -/
def select_step (acc : Option ClientPackage) (p : ClientPackage) :
    Option ClientPackage :=
  match acc with
  | none => some p
  | some q => if package_order_lt p q then some p else some q

/-- The `LIMIT 1` row of `_redeem_package_credit`'s query: the first minimal
eligible package under `package_order_lt`. -/
def select_package (s : DaycareState) (client_id : Nat) (today : ℤ) :
    Option ClientPackage :=
  (s.client_packages.filter
    (fun p => package_eligible p client_id today)).foldl select_step none

/-- `_redeem_package_credit` (system.py lines 906-924): pick the
earliest-expiring non-expired package of the client — with no filter on its
remaining credits — and fail unless that one still has credits; otherwise
decrement it by one. -/
def redeem_package_credit (s : DaycareState) (client_id : Nat) (today : ℤ) :
    Except String (Nat × DaycareState) :=
  match select_package s client_id today with
  | none => .error msgNoPackage
  | some row =>
      if row.remaining_credits ≤ 0 then .error msgNoRemainingCredits
      else .ok (row.id,
        { s with client_packages := s.client_packages.map (fun p =>
            if p.id == row.id then
              { p with remaining_credits := p.remaining_credits - 1 }
            else p) })

/-- `adjust_client_package` (system.py lines 572-583). -/
def adjust_client_package (s : DaycareState) (client_package_id : Nat)
    (delta : ℤ) : Except String (ClientPackage × DaycareState) := do
  let package ← get_client_package s client_package_id
  let new_balance := package.remaining_credits + delta
  if new_balance < 0 then .error msgNotEnoughCredits
  else .ok ({ package with remaining_credits := new_balance },
    { s with client_packages := s.client_packages.map (fun p =>
        if p.id == client_package_id then
          { p with remaining_credits := new_balance }
        else p) })

/-- One element of the `services` argument of `create_booking`:
`{"service_id": ..., "quantity": ...}` (quantity defaulting to 1 is the
caller's concern; here it is always explicit). -/
structure ServiceReq where
  service_id : Nat
  quantity : Nat
  deriving DecidableEq

/-- Value returned by `create_booking`: either the waitlisted record
`{"status": "waitlisted", "waitlist_ids": [...]}` or the admitted booking
with its generated invoice. -/
inductive BookingResult where
  | waitlisted (waitlist_ids : List Nat)
  | booked (booking_id : Nat) (invoice : Invoice)
  deriving DecidableEq

/-- The waitlist branch of `create_booking` (system.py lines 805-823): one
`waitlist` row per requested pet, collecting the new row ids. -/
def add_waitlist (location_id client_id : Nat) (start_time end_time : ℤ) :
    DaycareState → List Nat → (List Nat × DaycareState)
  | s, [] => ([], s)
  | s, pet_id :: rest =>
      let wid := s.next_waitlist_id
      let entry : WaitlistEntry :=
        { id := wid
          location_id := location_id
          client_id := client_id
          pet_id := pet_id
          requested_start := start_time
          requested_end := end_time }
      let s₁ := { s with
        waitlist := s.waitlist ++ [entry]
        next_waitlist_id := wid + 1 }
      let (ids, s₂) := add_waitlist location_id client_id start_time end_time s₁ rest
      (wid :: ids, s₂)

/-- The pet-line loop of `create_booking` (system.py lines 834-852):
for the pet at position `idx`, price the line (base rate for `idx = 0`,
discounted-and-rounded otherwise), optionally redeem a package credit
(which zeroes the price), insert the `booking_pets` row with
`gst_applicable = int(price > 0)`, and collect the invoice pet line. -/
def build_pet_lines (location : Location) (booking_id client_id : Nat)
    (use_package_credit : Bool) (today : ℤ) :
    DaycareState → List Nat → Nat → Except String (List PetPrice × DaycareState)
  | s, [], _ => .ok ([], s)
  | s, pet_id :: rest, idx => do
      let discount_multiplier := 1 - location.second_pet_discount / 100
      let listed_price :=
        if 1 ≤ idx then round2 (location.base_daycare_rate * discount_multiplier)
        else location.base_daycare_rate
      let (package_id, base_price, s₁) ←
        if use_package_credit then do
          let (pid, s') ← redeem_package_credit s client_id today
          pure (some pid, (0 : ℚ), s')
        else pure ((none : Option Nat), listed_price, s)
      let bp : BookingPet :=
        { id := s₁.next_booking_pet_id
          booking_id := booking_id
          pet_id := pet_id
          package_id := package_id
          price := base_price
          gst_applicable := decide (0 < base_price) }
      let s₂ := { s₁ with
        booking_pets := s₁.booking_pets ++ [bp]
        next_booking_pet_id := s₁.next_booking_pet_id + 1 }
      let pet ← get_pet s₂ pet_id
      let line : PetPrice :=
        { description := "Daycare - " ++ pet.name
          price := base_price
          taxable := decide (0 < base_price) }
      let (rest_lines, s₃) ←
        build_pet_lines location booking_id client_id use_package_credit today
          s₂ rest (idx + 1)
      .ok (line :: rest_lines, s₃)

/-- The service loop of `create_booking` (system.py lines 854-879): look up
each requested service, insert a `booking_services` row, and collect the
invoice service line. -/
def build_service_rows (booking_id : Nat) :
    DaycareState → List ServiceReq → Except String (List ServiceRow × DaycareState)
  | s, [] => .ok ([], s)
  | s, req :: rest => do
      let service ← get_service s req.service_id
      let row : BookingService :=
        { booking_id := booking_id
          service_id := service.id
          quantity := req.quantity
          price := service.price
          gst_applicable := service.gst_applicable }
      let s₁ := { s with booking_services := s.booking_services ++ [row] }
      let sr : ServiceRow :=
        { description := service.name
          price := service.price
          quantity := req.quantity
          gst_applicable := service.gst_applicable }
      let (rest_rows, s₂) := ← build_service_rows booking_id s₁ rest
      .ok (sr :: rest_rows, s₂)

/-- `create_booking` (system.py lines 777-904), without the
recurrence-rule side table (unrelated to any claim): look up the location,
validate time ordering, validate every pet's vaccination, then either
waitlist the whole request (capacity exceeded) or insert the booking row,
the pet and service lines, and the generated invoice. -/
def create_booking (s : DaycareState) (location_id client_id : Nat)
    (start_time end_time : ℤ) (pet_ids : List Nat)
    (services : List ServiceReq) (deposit_amount : ℚ)
    (use_package_credit : Bool) (today : ℤ) :
    Except String (BookingResult × DaycareState) := do
  let location ← get_location s location_id
  if end_time ≤ start_time then .error msgEndBeforeStart
  else do
    check_all_vaccinations s pet_ids start_time
    let booked := count_pets_booked s location_id start_time end_time
    if booked + pet_ids.length > location.capacity then
      let r := add_waitlist location_id client_id start_time end_time s pet_ids
      .ok (.waitlisted r.1, r.2)
    else do
      let booking_id := s.next_booking_id
      let booking : BookingRow :=
        { id := booking_id
          location_id := location_id
          client_id := client_id
          start_time := start_time
          end_time := end_time
          status := "reserved" }
      let s₁ := { s with
        bookings := s.bookings ++ [booking]
        next_booking_id := booking_id + 1 }
      let (pet_prices, s₂) ←
        build_pet_lines location booking_id client_id use_package_credit today
          s₁ pet_ids 0
      let (service_rows, s₃) := ← build_service_rows booking_id s₂ services
      let invoice :=
        create_invoice_for_booking booking_id client_id pet_prices service_rows
          deposit_amount
      let s₄ := { s₃ with invoices := s₃.invoices ++ [invoice] }
      .ok (.booked booking_id invoice, s₄)

/-- The state reached by a `create_booking` call: on `ValidationError` the
enclosing transaction is never committed, so the store is unchanged. -/
def apply_create_booking (s : DaycareState) (location_id client_id : Nat)
    (start_time end_time : ℤ) (pet_ids : List Nat)
    (services : List ServiceReq) (deposit_amount : ℚ)
    (use_package_credit : Bool) (today : ℤ) : DaycareState :=
  match create_booking s location_id client_id start_time end_time pet_ids
      services deposit_amount use_package_credit today with
  | .ok (_, s') => s'
  | .error _ => s

/-- `check_in_pet` (system.py lines 1087-1151): upsert the `checkins` row of
the pet's `booking_pets` row and set the booking status to `"checked_in"`. -/
def check_in_pet (s : DaycareState) (booking_id pet_id : Nat)
    (check_in_time : ℤ) : Except String (Checkin × DaycareState) := do
  let bp ← match s.booking_pets.find?
      (fun q => q.booking_id == booking_id && q.pet_id == pet_id) with
    | some q => pure q
    | none => .error msgPetNotOnBooking
  let checkins₁ :=
    if (s.checkins.find? (fun c => c.booking_pet_id == bp.id)).isSome then
      s.checkins.map (fun c =>
        if c.booking_pet_id == bp.id then { c with check_in_time := check_in_time }
        else c)
    else
      s.checkins ++ [{ booking_pet_id := bp.id
                       check_in_time := check_in_time
                       check_out_time := none }]
  let s₁ := { s with
    checkins := checkins₁
    bookings := s.bookings.map (fun b =>
      if b.id == booking_id then { b with status := "checked_in" } else b) }
  match s₁.checkins.find? (fun c => c.booking_pet_id == bp.id) with
  | some c => .ok (c, s₁)
  | none => .error msgNotCheckedIn

/-- The `checkins` rows belonging to a booking
(`booking_pet_id IN (SELECT id FROM booking_pets WHERE booking_id = ?)`). -/
def checkins_of_booking (s : DaycareState) (booking_id : Nat) : List Checkin :=
  s.checkins.filter (fun c =>
    (s.booking_pets.filter (fun q => q.booking_id == booking_id)).any
      (fun q => q.id == c.booking_pet_id))

/-- `check_out_pet` (system.py lines 1153-1187): stamp `check_out_time` on
the pet's check-in row, then count the booking's check-in rows still lacking
a check-out time; when none remain, set the booking status to
`"completed"`. -/
def check_out_pet (s : DaycareState) (booking_id pet_id : Nat)
    (check_out_time : ℤ) : Except String (Checkin × DaycareState) := do
  let bp ← match s.booking_pets.find?
      (fun q => q.booking_id == booking_id && q.pet_id == pet_id) with
    | some q => pure q
    | none => .error msgPetNotOnBooking
  let row ← match s.checkins.find? (fun c => c.booking_pet_id == bp.id) with
    | some c => pure c
    | none => .error msgNotCheckedIn
  let checkins₁ := s.checkins.map (fun c =>
    if c.booking_pet_id == bp.id then { c with check_out_time := some check_out_time }
    else c)
  let s₁ := { s with checkins := checkins₁ }
  let remaining := ((checkins_of_booking s₁ booking_id).filter
    (fun c => c.check_out_time.isNone)).length
  let s₂ :=
    if remaining == 0 then
      { s₁ with bookings := s₁.bookings.map (fun b =>
          if b.id == booking_id then { b with status := "completed" } else b) }
    else s₁
  .ok ({ row with check_out_time := some check_out_time }, s₂)

/-- `SELECT status FROM bookings WHERE id = ?`. -/
def booking_status (s : DaycareState) (booking_id : Nat) : Option String :=
  (s.bookings.find? (fun b => b.id == booking_id)).map (·.status)

/-- The ids handed out by the waitlist branch: consecutive from `nid`. -/
def expected_waitlist_ids : Nat → List Nat → List Nat
  | _, [] => []
  | nid, _ :: rest => nid :: expected_waitlist_ids (nid + 1) rest

/-- The `waitlist` rows the waitlist branch inserts, one per requested pet. -/
def expected_waitlist_rows (location_id client_id : Nat)
    (start_time end_time : ℤ) : Nat → List Nat → List WaitlistEntry
  | _, [] => []
  | nid, pet_id :: rest =>
      { id := nid
        location_id := location_id
        client_id := client_id
        pet_id := pet_id
        requested_start := start_time
        requested_end := end_time } ::
      expected_waitlist_rows location_id client_id start_time end_time (nid + 1) rest

def pet_line_price (location : Location) (idx : Nat) : ℚ :=
  if 1 ≤ idx then
    round2 (location.base_daycare_rate * (1 - location.second_pet_discount / 100))
  else location.base_daycare_rate

def expected_pet_rows (location : Location) (bid : Nat) :
    Nat → Nat → List Nat → List BookingPet
  | _, _, [] => []
  | nid, idx, pid :: rest =>
      { id := nid
        booking_id := bid
        pet_id := pid
        package_id := none
        price := pet_line_price location idx
        gst_applicable := decide (0 < pet_line_price location idx) } ::
      expected_pet_rows location bid (nid + 1) (idx + 1) rest

def credit_pet_row (nid bid pid pkg : Nat) : BookingPet :=
  { id := nid
    booking_id := bid
    pet_id := pid
    package_id := some pkg
    price := 0
    gst_applicable := decide ((0:ℚ) < 0) }

/-- The transaction-boundary view of `adjust_client_package`: a
`ValidationError` rolls back, leaving the store unchanged. -/
def apply_adjust_client_package (s : DaycareState) (client_package_id : Nat)
    (delta : ℤ) : DaycareState :=
  match adjust_client_package s client_package_id delta with
  | .ok (_, s') => s'
  | .error _ => s

/-- The `remaining_credits ≥ 0` invariant over the whole store. -/
def packages_nonneg (s : DaycareState) : Prop :=
  ∀ p ∈ s.client_packages, 0 ≤ p.remaining_credits

/-- Primary-key uniqueness of `client_packages.id` (a database guarantee). -/
def package_ids_unique (s : DaycareState) : Prop :=
  s.client_packages.Pairwise (fun a b => a.id ≠ b.id)

/-- A pet that `_check_vaccination_valid` rejects as of `reference_date`:
no vaccination record at all, or the latest expiry lies strictly before it. -/
def vaccination_blocked (s : DaycareState) (pet_id : Nat)
    (reference_date : ℤ) : Bool :=
  match latest_vaccination_expiry s pet_id with
  | none => true
  | some e => decide (e < reference_date)

/-- The behaviour claimed of `record_payment` on one invoice. -/
def payment_behaviour (invoice : Invoice) (amount : ℚ) : Prop :=
  (amount = invoice.balance_due →
    (record_payment invoice amount).status = "paid" ∧
    (record_payment invoice amount).balance_due = 0) ∧
  (amount < invoice.balance_due →
    (record_payment invoice amount).status = invoice.status ∧
    (record_payment invoice amount).balance_due =
      invoice.balance_due - amount) ∧
  (invoice.status ≠ "paid" →
    ((record_payment invoice amount).status = "paid" ↔
      invoice.balance_due - amount ≤ 0)) ∧
  (invoice.balance_due < amount →
    (record_payment invoice amount).balance_due < 0)

/-- A store with no rows yet. -/
def emptyState : DaycareState :=
  { locations := []
    pets := []
    vaccination_records := []
    services := []
    bookings := []
    booking_pets := []
    booking_services := []
    waitlist := []
    client_packages := []
    checkins := []
    invoices := []
    next_booking_id := 1
    next_booking_pet_id := 1
    next_waitlist_id := 1 }

/-- Location of the worked examples: capacity 2, base rate 65,
second-pet discount 20%. -/
def exLocation : Location :=
  { id := 1, capacity := 2, base_daycare_rate := 65, second_pet_discount := 20 }

/-- Store with three vaccinated pets (expiries far in the future), one
unvaccinated pet, and two services; no bookings yet.  Times are minutes, so
480 and 1020 are 08:00 and 17:00. -/
def openDayState : DaycareState :=
  { emptyState with
      locations := [exLocation]
      pets := [⟨1, "Rex"⟩, ⟨2, "Molly"⟩, ⟨3, "Otis"⟩, ⟨4, "Buddy"⟩]
      vaccination_records := [⟨1, 100000⟩, ⟨2, 100000⟩, ⟨3, 100000⟩]
      services := [⟨1, "Grooming", 25, true⟩, ⟨2, "Late fee", 10, false⟩] }

/-- `openDayState` plus an existing reserved booking that fills the
location's capacity of 2 over [08:00, 17:00). -/
def fullDayState : DaycareState :=
  { openDayState with
      bookings := [⟨1, 1, 1, 480, 1020, "reserved"⟩]
      booking_pets := [⟨1, 1, 1, none, 65, true⟩, ⟨2, 1, 2, none, 52, true⟩]
      next_booking_id := 2
      next_booking_pet_id := 3 }

/-- `openDayState` plus two packages for client 1: the earlier-expiring one
has no credits left, the later-expiring one still has five. -/
def twoPackageState : DaycareState :=
  { openDayState with
      client_packages := [⟨1, 1, 0, 0, some 100⟩, ⟨2, 1, 5, 0, some 200⟩] }

/-- A booking with two pets, both checked in and neither checked out. -/
def checkedInState : DaycareState :=
  { openDayState with
      bookings := [⟨1, 1, 1, 480, 1020, "checked_in"⟩]
      booking_pets := [⟨1, 1, 1, none, 65, true⟩, ⟨2, 1, 2, none, 52, true⟩]
      checkins := [⟨1, 480, none⟩, ⟨2, 480, none⟩]
      next_booking_id := 2
      next_booking_pet_id := 3 }

/-- A freshly issued invoice with a balance of 110. -/
def exInvoice : Invoice :=
  { booking_id := 1
    client_id := 1
    status := "issued"
    subtotal := 100
    gst_amount := 10
    total := 110
    balance_due := 110
    line_items := []
    payments := [] }

/-- Invoice with one taxable pet line (65) and one GST-free service line
(10): the shape that makes the Xero export disagree with the stored GST. -/
def mixedInvoice : Invoice :=
  create_invoice_for_booking 1 1 [⟨"Daycare - Rex", 65, true⟩]
    [⟨"Late fee", 10, 1, false⟩] 0

/-- The invoice generated by the worked admitted booking below. -/
def bookedInvoice : Invoice :=
  create_invoice_for_booking 1 1
    [⟨"Daycare - Rex", 65, true⟩, ⟨"Daycare - Molly", 52, true⟩]
    [⟨"Grooming", 25, 1, true⟩] 0

/-- The store after the worked admitted booking: client 1 books pets 1 and 2
with one grooming service on [08:00, 17:00). -/
def bookedFinalState : DaycareState :=
  apply_create_booking openDayState 1 1 480 1020 [1, 2] [⟨1, 1⟩] 0 false 0


theorem roundHalfEven_intCast (n : ℤ) : roundHalfEven (n : ℚ) = n := by
  unfold roundHalfEven
  simp only [Int.floor_intCast, sub_self]
  norm_num

theorem round2_of_isCents {q : ℚ} (h : isCents q) : round2 q = q := by
  have hq : ((q * 100).num : ℚ) = q * 100 := by
    conv_rhs => rw [← Rat.num_div_den (q * 100)]
    rw [h]
    simp
  unfold round2
  rw [← hq, roundHalfEven_intCast, hq]
  field_simp

theorem isCents_sub {a b : ℚ} (ha : isCents a) (hb : isCents b) : isCents (a - b) := by
  unfold isCents at *
  have h : (a - b) * 100 = a * 100 - b * 100 := by ring
  rw [h]
  have ha' : ((a * 100).num : ℚ) = a * 100 := by
    conv_rhs => rw [← Rat.num_div_den (a * 100)]; rw [ha]; simp
  have hb' : ((b * 100).num : ℚ) = b * 100 := by
    conv_rhs => rw [← Rat.num_div_den (b * 100)]; rw [hb]; simp
  rw [← ha', ← hb', ← Int.cast_sub]
  exact Rat.den_intCast _

theorem except_bind_ok {α β : Type} (a : α) (f : α → Except String β) :
    (Except.ok a >>= f) = f a := rfl

theorem except_bind_error {α β : Type} (e : String) (f : α → Except String β) :
    ((Except.error e : Except String α) >>= f) = Except.error e := rfl

theorem get_service_congr {s₁ s₂ : DaycareState} (h : s₁.services = s₂.services)
    (service_id : Nat) : get_service s₁ service_id = get_service s₂ service_id := by
  unfold get_service
  rw [h]

theorem get_pet_congr {s₁ s₂ : DaycareState} (h : s₁.pets = s₂.pets)
    (pet_id : Nat) : get_pet s₁ pet_id = get_pet s₂ pet_id := by
  unfold get_pet
  rw [h]

theorem expected_waitlist_ids_length (nid : Nat) (pids : List Nat) :
    (expected_waitlist_ids nid pids).length = pids.length := by
  induction pids generalizing nid with
  | nil => rfl
  | cons p rest ih => simp [expected_waitlist_ids, ih]

theorem add_waitlist_spec (location_id client_id : Nat) (start_time end_time : ℤ) :
    ∀ (s : DaycareState) (pids : List Nat),
      add_waitlist location_id client_id start_time end_time s pids =
        (expected_waitlist_ids s.next_waitlist_id pids,
         { s with
             waitlist := s.waitlist ++
               expected_waitlist_rows location_id client_id start_time end_time
                 s.next_waitlist_id pids
             next_waitlist_id := s.next_waitlist_id + pids.length }) := by
  intro s pids
  induction pids generalizing s with
  | nil => simp [add_waitlist, expected_waitlist_ids, expected_waitlist_rows]
  | cons p rest ih =>
      simp only [add_waitlist, expected_waitlist_ids, expected_waitlist_rows, ih]
      simp [List.append_assoc]
      try omega

theorem except_pure {α : Type} (a : α) : (pure a : Except String α) = .ok a := rfl

theorem except_bind_eq_ok {α β : Type} {x : Except String α} {f : α → Except String β}
    {b : β} (h : (x >>= f) = .ok b) : ∃ a, x = .ok a ∧ f a = .ok b := by
  cases x with
  | error e => exact absurd h (by simp [Bind.bind, Except.bind])
  | ok a => exact ⟨a, rfl, h⟩

theorem build_pet_lines_no_credit (location : Location) (bid cid : Nat) (today : ℤ) :
    ∀ (s : DaycareState) (pids : List Nat) (idx : Nat) (res : List PetPrice × DaycareState),
      build_pet_lines location bid cid false today s pids idx = .ok res →
      res.1.length = pids.length ∧
      res.2 = { s with
        booking_pets := s.booking_pets ++
          expected_pet_rows location bid s.next_booking_pet_id idx pids
        next_booking_pet_id := s.next_booking_pet_id + pids.length } := by
  intro s pids
  induction pids generalizing s with
  | nil =>
      intro idx res h
      simp only [build_pet_lines] at h
      cases h
      simp [expected_pet_rows]
  | cons pid rest ih =>
      intro idx res h
      simp only [build_pet_lines, except_pure, except_bind_ok, Bool.false_eq_true,
        if_false] at h
      obtain ⟨pet, hpet, h⟩ := except_bind_eq_ok h
      obtain ⟨⟨rl, s₃⟩, hrec, h⟩ := except_bind_eq_ok h
      obtain ⟨h1, h2⟩ := ih _ _ _ hrec
      cases h
      refine ⟨by simp [h1], ?_⟩
      rw [h2]
      simp [expected_pet_rows, pet_line_price, List.append_assoc]
      try omega

theorem redeem_package_credit_ok {s : DaycareState} {cid : Nat} {today : ℤ}
    {pid : Nat} {s' : DaycareState}
    (h : redeem_package_credit s cid today = .ok (pid, s')) :
    ∃ row, select_package s cid today = some row ∧ row.id = pid ∧
      0 < row.remaining_credits ∧
      s' = { s with client_packages := s.client_packages.map (fun p =>
        if p.id == pid then { p with remaining_credits := p.remaining_credits - 1 }
        else p) } := by
  unfold redeem_package_credit at h
  split at h
  · cases h
  · rename_i row hsel
    split at h
    · cases h
    · rename_i hrem
      cases h
      exact ⟨row, hsel, rfl, by omega, rfl⟩

theorem build_pet_lines_fields (location : Location) (bid cid : Nat)
    (upc : Bool) (today : ℤ) :
    ∀ (s : DaycareState) (pids : List Nat) (idx : Nat)
      (res : List PetPrice × DaycareState),
      build_pet_lines location bid cid upc today s pids idx = .ok res →
      res.2.locations = s.locations ∧ res.2.pets = s.pets ∧
      res.2.vaccination_records = s.vaccination_records ∧
      res.2.services = s.services ∧ res.2.bookings = s.bookings ∧
      res.2.booking_services = s.booking_services ∧
      res.2.waitlist = s.waitlist ∧ res.2.checkins = s.checkins ∧
      res.2.invoices = s.invoices ∧
      res.2.next_booking_id = s.next_booking_id ∧
      res.2.next_waitlist_id = s.next_waitlist_id := by
  intro s pids
  induction pids generalizing s with
  | nil =>
      intro idx res h
      simp only [build_pet_lines] at h
      cases h
      simp
  | cons pid rest ih =>
      intro idx res h
      cases upc with
      | false =>
          simp only [build_pet_lines, except_pure, except_bind_ok,
            Bool.false_eq_true, if_false] at h
          obtain ⟨pet, hpet, h⟩ := except_bind_eq_ok h
          obtain ⟨⟨rl, s₃⟩, hrec, h⟩ := except_bind_eq_ok h
          have := ih _ _ _ hrec
          cases h
          simpa using this
      | true =>
          simp only [build_pet_lines, except_pure, except_bind_ok, if_true] at h
          obtain ⟨⟨pidr, sr⟩, hred, h⟩ := except_bind_eq_ok h
          obtain ⟨row, hsel, hid, hpos, hsr⟩ := redeem_package_credit_ok hred
          obtain ⟨pet, hpet, h⟩ := except_bind_eq_ok h
          obtain ⟨⟨rl, s₃⟩, hrec, h⟩ := except_bind_eq_ok h
          have := ih _ _ _ hrec
          cases h
          subst hsr
          simpa using this

theorem build_pet_lines_credit (location : Location) (bid cid : Nat) (today : ℤ) :
    ∀ (s : DaycareState) (pids : List Nat) (idx : Nat)
      (res : List PetPrice × DaycareState),
      build_pet_lines location bid cid true today s pids idx = .ok res →
      (∀ line ∈ res.1, line.price = 0 ∧ line.taxable = false) ∧
      ∃ rows, res.2.booking_pets = s.booking_pets ++ rows ∧
        ∀ bp ∈ rows, bp.price = 0 ∧ bp.gst_applicable = false ∧
          bp.package_id.isSome = true := by
  intro s pids
  induction pids generalizing s with
  | nil =>
      intro idx res h
      simp only [build_pet_lines] at h
      cases h
      exact ⟨by simp, [], by simp, by simp⟩
  | cons pid rest ih =>
      intro idx res h
      simp only [build_pet_lines, except_pure, except_bind_ok, if_true] at h
      obtain ⟨⟨pidr, sr⟩, hred, h⟩ := except_bind_eq_ok h
      obtain ⟨row, hsel, hid, hpos, hsr⟩ := redeem_package_credit_ok hred
      obtain ⟨pet, hpet, h⟩ := except_bind_eq_ok h
      obtain ⟨⟨rl, s₃⟩, hrec, h⟩ := except_bind_eq_ok h
      obtain ⟨hlines, rows, hbp, hrows⟩ := ih _ _ _ hrec
      cases h
      subst hsr
      constructor
      · intro line hline
        rcases List.mem_cons.mp hline with hline | hline
        · subst hline; exact ⟨rfl, by simp⟩
        · exact hlines line hline
      · refine ⟨credit_pet_row s.next_booking_pet_id bid pid pidr :: rows, ?_, ?_⟩
        · simp only [credit_pet_row]
          simpa [List.append_assoc] using hbp
        · intro bp hbp2
          rcases List.mem_cons.mp hbp2 with hbp2 | hbp2
          · subst hbp2; exact ⟨rfl, by simp [credit_pet_row], rfl⟩
          · exact hrows bp hbp2

theorem build_service_rows_spec (bid : Nat) :
    ∀ (s : DaycareState) (reqs : List ServiceReq)
      (res : List ServiceRow × DaycareState),
      build_service_rows bid s reqs = .ok res →
      List.Forall₂ (fun (req : ServiceReq) (sr : ServiceRow) =>
        ∃ svc, get_service s req.service_id = .ok svc ∧
          sr = { description := svc.name, price := svc.price,
                 quantity := req.quantity,
                 gst_applicable := svc.gst_applicable }) reqs res.1 ∧
      ∃ rows, res.2 = { s with booking_services := s.booking_services ++ rows } ∧
        List.Forall₂ (fun (req : ServiceReq) (row : BookingService) =>
          ∃ svc, get_service s req.service_id = .ok svc ∧
            row = { booking_id := bid, service_id := svc.id,
                    quantity := req.quantity, price := svc.price,
                    gst_applicable := svc.gst_applicable }) reqs rows := by
  intro s reqs
  induction reqs generalizing s with
  | nil =>
      intro res h
      simp only [build_service_rows] at h
      cases h
      exact ⟨List.Forall₂.nil, [], by simp, List.Forall₂.nil⟩
  | cons req rest ih =>
      intro res h
      simp only [build_service_rows, except_pure, except_bind_ok] at h
      obtain ⟨svc, hsvc, h⟩ := except_bind_eq_ok h
      obtain ⟨⟨rl, s₂⟩, hrec, h⟩ := except_bind_eq_ok h
      obtain ⟨hfa, rows, hst, hrows⟩ := ih _ _ hrec
      cases h
      have hserv : ∀ i, get_service
          ({ s with booking_services := s.booking_services ++
              [{ booking_id := bid, service_id := svc.id, quantity := req.quantity,
                 price := svc.price, gst_applicable := svc.gst_applicable }] } :
            DaycareState) i = get_service s i :=
        fun i => get_service_congr rfl i
      refine ⟨List.Forall₂.cons ⟨svc, hsvc, rfl⟩ ?_, ?_⟩
      · exact hfa.imp (fun a b hab => by
          obtain ⟨svc2, hsvc2, hb⟩ := hab
          exact ⟨svc2, (hserv a.service_id) ▸ hsvc2, hb⟩)
      · refine ⟨{ booking_id := bid, service_id := svc.id, quantity := req.quantity,
                  price := svc.price, gst_applicable := svc.gst_applicable } :: rows, ?_, ?_⟩
        · rw [hst]
          simp [List.append_assoc]
        · refine List.Forall₂.cons ⟨svc, hsvc, rfl⟩ ?_
          exact hrows.imp (fun a b hab => by
            obtain ⟨svc2, hsvc2, hb⟩ := hab
            exact ⟨svc2, (hserv a.service_id) ▸ hsvc2, hb⟩)

theorem create_booking_booked_elim
    {s : DaycareState} {lid cid : Nat} {st en : ℤ} {pids : List Nat}
    {svcs : List ServiceReq} {dep : ℚ} {upc : Bool} {today : ℤ}
    {bid : Nat} {inv : Invoice} {s' : DaycareState}
    (h : create_booking s lid cid st en pids svcs dep upc today =
      .ok (.booked bid inv, s')) :
    ∃ location pet_prices service_rows s₂ s₃,
      get_location s lid = .ok location ∧
      st < en ∧
      check_all_vaccinations s pids st = .ok () ∧
      count_pets_booked s lid st en + pids.length ≤ location.capacity ∧
      bid = s.next_booking_id ∧
      build_pet_lines location bid cid upc today
        { s with
            bookings := s.bookings ++
              [{ id := bid, location_id := lid, client_id := cid,
                 start_time := st, end_time := en, status := "reserved" }]
            next_booking_id := bid + 1 } pids 0 = .ok (pet_prices, s₂) ∧
      build_service_rows bid s₂ svcs = .ok (service_rows, s₃) ∧
      inv = create_invoice_for_booking bid cid pet_prices service_rows dep ∧
      s' = { s₃ with invoices := s₃.invoices ++ [inv] } := by
  unfold create_booking at h
  obtain ⟨location, hloc, h⟩ := except_bind_eq_ok h
  split at h
  · cases h
  · rename_i hts
    obtain ⟨u, hvac, h⟩ := except_bind_eq_ok h
    dsimp only [] at h
    split at h
    · rename_i hcap
      cases h
    · rename_i hcap
      obtain ⟨⟨pp, s₂⟩, hb, h⟩ := except_bind_eq_ok h
      obtain ⟨⟨srows, s₃⟩, hs, h⟩ := except_bind_eq_ok h
      simp only [Except.ok.injEq, Prod.mk.injEq, BookingResult.booked.injEq] at h
      obtain ⟨⟨hbid, hinv⟩, hst⟩ := h
      subst hbid
      subst hinv
      subst hst
      exact ⟨location, pp, srows, s₂, s₃, hloc, by omega, by cases u; exact hvac,
        by omega, rfl, hb, hs, rfl, rfl⟩

theorem create_booking_waitlisted_intro
    {s : DaycareState} {lid cid : Nat} {st en : ℤ} {pids : List Nat}
    (svcs : List ServiceReq) (dep : ℚ) (upc : Bool) (today : ℤ)
    {location : Location}
    (hloc : get_location s lid = .ok location)
    (hts : st < en)
    (hvac : check_all_vaccinations s pids st = .ok ())
    (hcap : location.capacity < count_pets_booked s lid st en + pids.length) :
    create_booking s lid cid st en pids svcs dep upc today =
      .ok (.waitlisted (expected_waitlist_ids s.next_waitlist_id pids),
        { s with
            waitlist := s.waitlist ++
              expected_waitlist_rows lid cid st en s.next_waitlist_id pids
            next_waitlist_id := s.next_waitlist_id + pids.length }) := by
  unfold create_booking
  rw [hloc, except_bind_ok]
  rw [if_neg (by omega : ¬ en ≤ st)]
  rw [hvac, except_bind_ok]
  dsimp only []
  rw [if_pos (by omega :
    count_pets_booked s lid st en + pids.length > location.capacity)]
  rw [add_waitlist_spec]

theorem create_booking_waitlisted_elim
    {s : DaycareState} {lid cid : Nat} {st en : ℤ} {pids : List Nat}
    {svcs : List ServiceReq} {dep : ℚ} {upc : Bool} {today : ℤ}
    {ids : List Nat} {s' : DaycareState}
    (h : create_booking s lid cid st en pids svcs dep upc today =
      .ok (.waitlisted ids, s')) :
    ∃ location, get_location s lid = .ok location ∧
      st < en ∧
      check_all_vaccinations s pids st = .ok () ∧
      location.capacity < count_pets_booked s lid st en + pids.length ∧
      ids = expected_waitlist_ids s.next_waitlist_id pids ∧
      s' = { s with
        waitlist := s.waitlist ++
          expected_waitlist_rows lid cid st en s.next_waitlist_id pids
        next_waitlist_id := s.next_waitlist_id + pids.length } := by
  unfold create_booking at h
  obtain ⟨location, hloc, h⟩ := except_bind_eq_ok h
  split at h
  · cases h
  · rename_i hts
    obtain ⟨u, hvac, h⟩ := except_bind_eq_ok h
    dsimp only [] at h
    split at h
    · rename_i hcap
      rw [add_waitlist_spec] at h
      simp only [Except.ok.injEq, Prod.mk.injEq,
        BookingResult.waitlisted.injEq] at h
      obtain ⟨hids, hstate⟩ := h
      exact ⟨location, hloc, by omega, by cases u; exact hvac, by omega,
        hids.symm, hstate.symm⟩
    · obtain ⟨⟨pp, s₂⟩, hb, h⟩ := except_bind_eq_ok h
      obtain ⟨⟨srows, s₃⟩, hs, h⟩ := except_bind_eq_ok h
      simp only [Except.ok.injEq, Prod.mk.injEq] at h
      exact absurd h.1 (by intro hh; cases hh)

theorem create_invoice_fields (bid cid : Nat) (pp : List PetPrice)
    (sr : List ServiceRow) (dep : ℚ) :
    (create_invoice_for_booking bid cid pp sr dep).subtotal =
      round2 ((pp.map (·.price)).sum +
        (sr.map (fun r => r.price * (r.quantity : ℚ))).sum) ∧
    (create_invoice_for_booking bid cid pp sr dep).gst_amount =
      round2 ((((pp.filter (·.taxable)).map (·.price)).sum +
        ((sr.filter (·.gst_applicable)).map
          (fun r => r.price * (r.quantity : ℚ))).sum) * GST_RATE) ∧
    (create_invoice_for_booking bid cid pp sr dep).total =
      round2 (((pp.map (·.price)).sum +
        (sr.map (fun r => r.price * (r.quantity : ℚ))).sum) +
        (create_invoice_for_booking bid cid pp sr dep).gst_amount) ∧
    (create_invoice_for_booking bid cid pp sr dep).line_items.length =
      pp.length + sr.length := by
  unfold create_invoice_for_booking record_payment
  split <;> simp

theorem package_order_lt_irrefl (a : ClientPackage) :
    package_order_lt a a = false := by
  unfold package_order_lt
  cases a.expiry_date <;> simp

theorem package_order_lt_trans {a b c : ClientPackage}
    (hab : package_order_lt a b = true) (hbc : package_order_lt b c = true) :
    package_order_lt a c = true := by
  unfold package_order_lt at *
  cases ha : a.expiry_date <;> cases hb : b.expiry_date <;>
    cases hc : c.expiry_date <;>
    rw [ha, hb] at hab <;> rw [hb, hc] at hbc <;> simp_all <;> omega

theorem select_fold_min (l : List ClientPackage) :
    ∀ (acc : Option ClientPackage) (r : ClientPackage),
      l.foldl select_step acc = some r →
      (acc = some r ∨ r ∈ l) ∧
      (∀ a, acc = some a → r = a ∨ package_order_lt r a = true) ∧
      (∀ q ∈ l, package_order_lt q r = false) := by
  induction l with
  | nil =>
      intro acc r h
      simp only [List.foldl_nil] at h
      exact ⟨Or.inl h, fun a ha => by rw [h] at ha; exact Or.inl (by cases ha; rfl),
        by simp⟩
  | cons p rest ih =>
      intro acc r h
      simp only [List.foldl_cons] at h
      obtain ⟨hmem, hacc, hmin⟩ := ih (select_step acc p) r h
      have hstep : ∀ a, select_step acc p = some a →
          (a = p ∧ (∀ b, acc = some b → package_order_lt p b = true)) ∨
          (acc = some a ∧ package_order_lt p a = false) := by
        intro a hs
        unfold select_step at hs
        cases hq : acc with
        | none =>
            rw [hq] at hs
            cases hs
            exact Or.inl ⟨rfl, fun b hb => by cases hb⟩
        | some q =>
            rw [hq] at hs
            simp only [] at hs
            by_cases hlt : package_order_lt p q = true
            · rw [if_pos hlt] at hs
              cases hs
              exact Or.inl ⟨rfl, fun b hb => by cases hb; exact hlt⟩
            · rw [if_neg hlt] at hs
              cases hs
              exact Or.inr ⟨rfl, by simpa using hlt⟩
      have hc : ∃ c, select_step acc p = some c := by
        cases hq : acc with
        | none => exact ⟨p, by simp [select_step]⟩
        | some q =>
            by_cases hlt : package_order_lt p q = true
            · exact ⟨p, by simp [select_step, hlt]⟩
            · exact ⟨q, by simp [select_step, hlt]⟩
      obtain ⟨c, hcs⟩ := hc
      have hrc : r = c ∨ package_order_lt r c = true := hacc c hcs
      have hpc : package_order_lt p c = false := by
        rcases hstep c hcs with ⟨hcp, _⟩ | ⟨_, hf⟩
        · rw [hcp]; exact package_order_lt_irrefl p
        · exact hf
      refine ⟨?_, ?_, ?_⟩
      · rcases hmem with hmem | hmem
        · rcases hstep r hmem with ⟨hrp, _⟩ | ⟨haccr, _⟩
          · exact Or.inr (by rw [hrp]; exact List.mem_cons_self p rest)
          · exact Or.inl haccr
        · exact Or.inr (List.mem_cons_of_mem p hmem)
      · intro a ha
        rcases hstep c hcs with ⟨hcp, hall⟩ | ⟨hacc', hpcf⟩
        · have hpa : package_order_lt p a = true := hall a ha
          subst hcp
          rcases hrc with hrc | hrc
          · exact Or.inr (by rw [hrc]; exact hpa)
          · exact Or.inr (package_order_lt_trans hrc hpa)
        · rw [hacc'] at ha
          cases ha
          exact hrc
      · intro q hq
        rcases List.mem_cons.mp hq with hq | hq
        · subst hq
          rcases hrc with hrc | hrc
          · rw [← hrc] at hpc; exact hpc
          · cases hx : package_order_lt q r with
            | false => rfl
            | true =>
                have := package_order_lt_trans hx hrc
                rw [this] at hpc; cases hpc
        · exact hmin q hq


theorem select_package_spec {s : DaycareState} {cid : Nat} {today : ℤ}
    {row : ClientPackage} (h : select_package s cid today = some row) :
    row ∈ s.client_packages ∧ package_eligible row cid today = true ∧
    ∀ q ∈ s.client_packages, package_eligible q cid today = true →
      package_order_lt q row = false := by
  unfold select_package at h
  obtain ⟨hmem, _, hmin⟩ := select_fold_min _ none row h
  rcases hmem with hmem | hmem
  · cases hmem
  · have he := (List.mem_filter.mp hmem).2
    have hmem' := (List.mem_filter.mp hmem).1
    exact ⟨hmem', he, fun q hq hqe => hmin q (List.mem_filter.mpr ⟨hq, hqe⟩)⟩

/-- C10: `export_for_xero` computes every exported line item's TaxAmount as
`round(line total × 0.10, 2)` regardless of the line's stored `gst_rate`;
on `mixedInvoice` the non-taxable 10-dollar line (gst_rate 0) exports with
TaxAmount 1 ≠ 0, and the exported TaxAmounts sum to 15/2 while the stored
`gst_amount` is 13/2. -/
theorem claim_xero_export_taxamount :
    (∀ invoice : Invoice, (export_for_xero invoice).lineItems =
      invoice.line_items.map (fun item =>
        { description := item.description
          quantity := item.quantity
          unitAmount := item.unit_price
          taxAmount := round2 (item.total * GST_RATE) })) ∧
    mixedInvoice.line_items.map (·.gst_rate) = [GST_RATE, 0] ∧
    mixedInvoice.line_items.map (·.total) = [65, 10] ∧
    (export_for_xero mixedInvoice).lineItems.map (·.taxAmount) = [13/2, 1] ∧
    ((export_for_xero mixedInvoice).lineItems.map (·.taxAmount)).sum ≠
      mixedInvoice.gst_amount := by
  refine ⟨fun invoice => rfl, ?_, ?_, ?_, ?_⟩ <;> with_unfolding_all decide

/-- C4 amended: restricted to whole-cent balances and amounts (where the
code's `round(balance_due - amount, 2)` is exact), `record_payment` behaves
as claimed: paying the full balance sets status "paid" and balance 0;
paying strictly less leaves the status and subtracts exactly the amount; a
not-yet-paid invoice flips to "paid" exactly when the new balance is ≤ 0;
overpayment is accepted and drives the balance negative. -/
theorem claim_payment_reconciliation (invoice : Invoice) (amount : ℚ)
    (hb : isCents invoice.balance_due) (ha : isCents amount) :
    payment_behaviour invoice amount := by
  have hr : round2 (invoice.balance_due - amount) =
      invoice.balance_due - amount := round2_of_isCents (isCents_sub hb ha)
  unfold payment_behaviour record_payment
  simp only [hr]
  refine ⟨?_, ?_, ?_, ?_⟩
  · intro h
    subst h
    simp
  · intro h
    rw [if_neg (by linarith : ¬ invoice.balance_due - amount ≤ 0)]
    exact ⟨rfl, trivial⟩
  · intro hs
    constructor
    · intro hp
      by_cases hle : invoice.balance_due - amount ≤ 0
      · exact hle
      · rw [if_neg hle] at hp
        exact absurd hp hs
    · intro hle
      rw [if_pos hle]
  · intro h
    linarith

/-- C4 counterexample: the claim quantifies over every payment amount, but
the code rounds the new balance to two decimals, so the sub-cent payment
1/200 = 0.005 against a balance of 110 leaves `balance_due` at 110 instead
of reducing it by exactly the payment amount (110 − 0.005 = 109.995 rounds
half-to-even back to 110.00). -/
theorem claim_payment_counterexample :
    (1/200 : ℚ) < exInvoice.balance_due ∧
    (record_payment exInvoice (1/200)).balance_due = exInvoice.balance_due ∧
    (record_payment exInvoice (1/200)).balance_due ≠
      exInvoice.balance_due - 1/200 := by
  refine ⟨?_, ?_, ?_⟩ <;> with_unfolding_all decide

/-- C4 witness: a concrete partial payment of 60 against a balance of 110. -/
theorem claim_payment_reconciliation_witness : payment_behaviour exInvoice 60 :=
  claim_payment_reconciliation exInvoice 60 (by with_unfolding_all decide)
    (by with_unfolding_all decide)

/-- C2: when the overlapping booked-pet count plus the requested pets exceeds
the location's capacity, `create_booking` creates no booking row: it returns
the waitlisted record with one new waitlist id per requested pet, and the
only change to the store is the appended waitlist rows (and their id
counter). -/
theorem claim_capacity_waitlist
    {s : DaycareState} {lid cid : Nat} {st en : ℤ} {pids : List Nat}
    (svcs : List ServiceReq) (dep : ℚ) (upc : Bool) (today : ℤ)
    {location : Location}
    (hloc : get_location s lid = .ok location)
    (hts : st < en)
    (hvac : check_all_vaccinations s pids st = .ok ())
    (hcap : location.capacity < count_pets_booked s lid st en + pids.length) :
    create_booking s lid cid st en pids svcs dep upc today =
      .ok (.waitlisted (expected_waitlist_ids s.next_waitlist_id pids),
        { s with
            waitlist := s.waitlist ++
              expected_waitlist_rows lid cid st en s.next_waitlist_id pids
            next_waitlist_id := s.next_waitlist_id + pids.length }) ∧
    (expected_waitlist_ids s.next_waitlist_id pids).length = pids.length :=
  ⟨create_booking_waitlisted_intro svcs dep upc today hloc hts hvac hcap,
   expected_waitlist_ids_length _ _⟩

/-- C2 witness: the claim's example — capacity 2, two pets already booked on
[08:00, 17:00), a new one-pet request for the same window is waitlisted. -/
theorem claim_capacity_waitlist_witness :
    create_booking fullDayState 1 1 480 1020 [3] [] 0 false 0 =
      .ok (.waitlisted (expected_waitlist_ids fullDayState.next_waitlist_id [3]),
        { fullDayState with
            waitlist := fullDayState.waitlist ++
              expected_waitlist_rows 1 1 480 1020 fullDayState.next_waitlist_id [3]
            next_waitlist_id :=
              fullDayState.next_waitlist_id + ([3] : List Nat).length }) ∧
    (expected_waitlist_ids fullDayState.next_waitlist_id [3]).length =
      ([3] : List Nat).length :=
  @claim_capacity_waitlist fullDayState 1 1 480 1020 [3] [] 0 false 0 exLocation
    rfl (by decide) rfl (by decide)

theorem check_all_vaccinations_cases (s : DaycareState) (ref : ℤ) :
    ∀ pids : List Nat,
      check_all_vaccinations s pids ref = .ok () ∨
      check_all_vaccinations s pids ref = .error msgMissingVaccination ∨
      check_all_vaccinations s pids ref = .error msgExpiredVaccination := by
  intro pids
  induction pids with
  | nil => exact Or.inl rfl
  | cons pid rest ih =>
      simp only [check_all_vaccinations, check_vaccination_valid]
      cases hl : latest_vaccination_expiry s pid with
      | none => right; left; rfl
      | some ex =>
          simp only []
          by_cases hex : ex < ref
          · rw [if_pos hex]
            right; right; rfl
          · rw [if_neg hex]
            simpa [check_all_vaccinations] using ih

theorem check_all_vaccinations_ok {s : DaycareState} {ref : ℤ} :
    ∀ {pids : List Nat}, check_all_vaccinations s pids ref = .ok () →
      ∀ pid ∈ pids, vaccination_blocked s pid ref = false := by
  intro pids
  induction pids with
  | nil =>
      intro _ pid hpid
      cases hpid
  | cons p rest ih =>
      intro h pid hpid
      simp only [check_all_vaccinations] at h
      obtain ⟨u, hu, h⟩ := except_bind_eq_ok h
      rcases List.mem_cons.mp hpid with rfl | hpid
      · unfold check_vaccination_valid at hu
        unfold vaccination_blocked
        cases hl : latest_vaccination_expiry s pid with
        | none => rw [hl] at hu; cases hu
        | some ex =>
            rw [hl] at hu
            simp only [] at hu
            by_cases hex : ex < ref
            · rw [if_pos hex] at hu; cases hu
            · simp [hex]
      · exact ih h pid hpid

/-- C9: with an existing location, a `create_booking` call whose end time is
not strictly after its start raises the time-ordering `ValidationError` and
leaves the store untouched; consequently, any `create_booking` call
preserves the invariant that every stored booking has end time > start
time. -/
theorem claim_booking_time_ordering :
    (∀ (s : DaycareState) (lid cid : Nat) (st en : ℤ) (pids : List Nat)
       (svcs : List ServiceReq) (dep : ℚ) (upc : Bool) (today : ℤ)
       (location : Location),
      get_location s lid = .ok location → en ≤ st →
      create_booking s lid cid st en pids svcs dep upc today =
        .error msgEndBeforeStart ∧
      apply_create_booking s lid cid st en pids svcs dep upc today = s) ∧
    (∀ (s : DaycareState) (lid cid : Nat) (st en : ℤ) (pids : List Nat)
       (svcs : List ServiceReq) (dep : ℚ) (upc : Bool) (today : ℤ)
       (r : BookingResult) (s' : DaycareState),
      (∀ b ∈ s.bookings, b.start_time < b.end_time) →
      create_booking s lid cid st en pids svcs dep upc today = .ok (r, s') →
      ∀ b ∈ s'.bookings, b.start_time < b.end_time) := by
  constructor
  · intro s lid cid st en pids svcs dep upc today location hloc hts
    have he : create_booking s lid cid st en pids svcs dep upc today =
        .error msgEndBeforeStart := by
      unfold create_booking
      rw [hloc, except_bind_ok, if_pos hts]
    exact ⟨he, by unfold apply_create_booking; rw [he]⟩
  · intro s lid cid st en pids svcs dep upc today r s' hinv h b hb
    cases r with
    | waitlisted ids =>
        obtain ⟨location, _, _, _, _, _, hstate⟩ :=
          create_booking_waitlisted_elim h
        subst hstate
        exact hinv b hb
    | booked bid inv =>
        obtain ⟨location, pp, srows, s₂, s₃, hloc2, hts2, hvac2, hcap2, hbid,
          hb2, hs2, hinv2, hstate⟩ := create_booking_booked_elim h
        have h2 := (build_pet_lines_fields _ _ _ _ _ _ _ _ _ hb2).2.2.2.2.1
        obtain ⟨hfa, rows, hst3, hrows⟩ := build_service_rows_spec _ _ _ _ hs2
        simp only [] at h2 hst3
        subst hstate
        change b ∈ s₃.bookings at hb
        rw [hst3] at hb
        change b ∈ s₂.bookings at hb
        rw [h2] at hb
        change b ∈ s.bookings ++
          [{ id := bid, location_id := lid, client_id := cid,
             start_time := st, end_time := en, status := "reserved" }] at hb
        rcases List.mem_append.mp hb with hb | hb
        · exact hinv b hb
        · rcases List.mem_singleton.mp hb with rfl
          exact hts2

/-- C9 witness: a concrete call with end time before start time errors and
leaves the store unchanged. -/
theorem claim_booking_time_ordering_witness :
    create_booking openDayState 1 1 1020 480 [1] [] 0 false 0 =
      .error msgEndBeforeStart ∧
    apply_create_booking openDayState 1 1 1020 480 [1] [] 0 false 0 =
      openDayState :=
  claim_booking_time_ordering.1 openDayState 1 1 1020 480 [1] [] 0 false 0
    exLocation rfl (by decide)

/-- C6: with an existing location and a well-ordered time window, a
`create_booking` request in which some pet has no vaccination record, or a
latest expiry before the start time, raises one of the two vaccination
`ValidationError`s, and the store is unchanged — neither a booking nor a
waitlist row is created. -/
theorem claim_vaccination_gate
    {s : DaycareState} {lid cid : Nat} {st en : ℤ} {pids : List Nat}
    (svcs : List ServiceReq) (dep : ℚ) (upc : Bool) (today : ℤ)
    {location : Location}
    (hloc : get_location s lid = .ok location)
    (hts : st < en)
    (hbad : ∃ pid ∈ pids, vaccination_blocked s pid st = true) :
    (create_booking s lid cid st en pids svcs dep upc today =
        .error msgMissingVaccination ∨
     create_booking s lid cid st en pids svcs dep upc today =
        .error msgExpiredVaccination) ∧
    apply_create_booking s lid cid st en pids svcs dep upc today = s := by
  obtain ⟨pid, hpid, hblocked⟩ := hbad
  have hnotok : check_all_vaccinations s pids st ≠ .ok () := by
    intro hok
    have := check_all_vaccinations_ok hok pid hpid
    rw [hblocked] at this
    cases this
  have hcb : ∀ e, check_all_vaccinations s pids st = .error e →
      create_booking s lid cid st en pids svcs dep upc today = .error e := by
    intro e he
    unfold create_booking
    rw [hloc, except_bind_ok, if_neg (by omega : ¬ en ≤ st), he,
      except_bind_error]
  rcases check_all_vaccinations_cases s st pids with hok | herr | herr
  · exact absurd hok hnotok
  · have h := hcb _ herr
    exact ⟨Or.inl h, by unfold apply_create_booking; rw [h]⟩
  · have h := hcb _ herr
    exact ⟨Or.inr h, by unfold apply_create_booking; rw [h]⟩

/-- C6 witness: requesting the unvaccinated pet 4 is rejected with a
vaccination error and the store is unchanged. -/
theorem claim_vaccination_gate_witness :
    (create_booking openDayState 1 1 480 1020 [4] [] 0 false 0 =
        .error msgMissingVaccination ∨
     create_booking openDayState 1 1 480 1020 [4] [] 0 false 0 =
        .error msgExpiredVaccination) ∧
    apply_create_booking openDayState 1 1 480 1020 [4] [] 0 false 0 =
      openDayState :=
  @claim_vaccination_gate openDayState 1 1 480 1020 [4] [] 0 false 0 exLocation
    rfl (by decide) ⟨4, by decide, rfl⟩

/-- C3 counterexample: client 1 holds an earlier-expiring package with zero
credits and a later-expiring package with five credits; as of day 50 both
are non-expired, so the claimed rule ("consume from the earliest-expiring
package that has remaining_credits > 0, else fail only when no credits
exist at all") would redeem from the second package — but the code fails
with a `ValidationError` because it selects the earliest-expiring package
without regard to its remaining credits. -/
theorem claim_package_redemption_counterexample :
    create_booking twoPackageState 1 1 480 1020 [1] [] 0 true 50 =
      .error msgNoRemainingCredits ∧
    ∃ p ∈ twoPackageState.client_packages,
      package_eligible p 1 50 = true ∧ 0 < p.remaining_credits := by
  constructor
  · with_unfolding_all rfl
  · exact ⟨⟨2, 1, 5, 0, some 200⟩, by decide, by decide, by decide⟩

/-- C3 amended: with `use_package_credit`, each pet line consumes one credit
from the client's earliest-expiring non-expired package (ties broken by
purchase date), selected without regard to remaining credits; the pet line
is priced 0 and non-taxable; the call fails with a `ValidationError` when
the client has no non-expired package, or when that selected package has no
remaining credits — even if another package still has credits. -/
theorem claim_package_redemption_amended :
    (∀ (s : DaycareState) (cid : Nat) (today : ℤ),
      select_package s cid today = none →
      redeem_package_credit s cid today = .error msgNoPackage) ∧
    (∀ (s : DaycareState) (cid : Nat) (today : ℤ) (row : ClientPackage),
      select_package s cid today = some row →
      row.remaining_credits ≤ 0 →
      redeem_package_credit s cid today = .error msgNoRemainingCredits) ∧
    (∀ (s : DaycareState) (cid : Nat) (today : ℤ) (row : ClientPackage),
      select_package s cid today = some row →
      0 < row.remaining_credits →
      redeem_package_credit s cid today = .ok (row.id,
        { s with client_packages := s.client_packages.map (fun p =>
            if p.id == row.id then
              { p with remaining_credits := p.remaining_credits - 1 }
            else p) })) ∧
    (∀ (s : DaycareState) (cid : Nat) (today : ℤ) (row : ClientPackage),
      select_package s cid today = some row →
      row ∈ s.client_packages ∧ package_eligible row cid today = true ∧
      ∀ q ∈ s.client_packages, package_eligible q cid today = true →
        package_order_lt q row = false) ∧
    (∀ (location : Location) (bid cid : Nat) (today : ℤ) (s : DaycareState)
       (pids : List Nat) (idx : Nat) (res : List PetPrice × DaycareState),
      build_pet_lines location bid cid true today s pids idx = .ok res →
      ∀ line ∈ res.1, line.price = 0 ∧ line.taxable = false) ∧
    (∀ (s : DaycareState) (lid cid : Nat) (st en : ℤ) (pids : List Nat)
       (svcs : List ServiceReq) (dep : ℚ) (today : ℤ) (bid : Nat)
       (inv : Invoice) (s' : DaycareState),
      create_booking s lid cid st en pids svcs dep true today =
        .ok (.booked bid inv, s') →
      ∀ bp ∈ s'.booking_pets, bp ∉ s.booking_pets →
        bp.price = 0 ∧ bp.gst_applicable = false ∧
        bp.package_id.isSome = true) := by
  refine ⟨?_, ?_, ?_, ?_, ?_, ?_⟩
  · intro s cid today hsel
    unfold redeem_package_credit
    rw [hsel]
  · intro s cid today row hsel hle
    unfold redeem_package_credit
    rw [hsel]
    simp only []
    rw [if_pos hle]
  · intro s cid today row hsel hpos
    unfold redeem_package_credit
    rw [hsel]
    simp only []
    rw [if_neg (by omega : ¬ row.remaining_credits ≤ 0)]
  · intro s cid today row hsel
    exact select_package_spec hsel
  · intro location bid cid today s pids idx res h
    exact (build_pet_lines_credit location bid cid today s pids idx res h).1
  · intro s lid cid st en pids svcs dep today bid inv s' h bp hbp hnotin
    obtain ⟨location, pp, srows, s₂, s₃, hloc2, hts2, hvac2, hcap2, hbid,
      hb2, hs2, hinv2, hstate⟩ := create_booking_booked_elim h
    obtain ⟨hlines, rows, hrows_eq, hrows⟩ :=
      build_pet_lines_credit _ _ _ _ _ _ _ _ hb2
    obtain ⟨hfa, srws, hst3, hsrws⟩ := build_service_rows_spec _ _ _ _ hs2
    simp only [] at hrows_eq hst3
    subst hstate
    change bp ∈ s₃.booking_pets at hbp
    rw [hst3] at hbp
    change bp ∈ s₂.booking_pets at hbp
    rw [hrows_eq] at hbp
    change bp ∈ s.booking_pets ++ rows at hbp
    rcases List.mem_append.mp hbp with hbp | hbp
    · exact absurd hbp hnotin
    · exact hrows bp hbp

/-- C3 amended witness: on the two-package store the earliest-expiring
package is selected even though it has no credits, so redemption fails. -/
theorem claim_package_redemption_amended_witness :
    redeem_package_credit twoPackageState 1 50 = .error msgNoRemainingCredits :=
  claim_package_redemption_amended.2.1 twoPackageState 1 50
    ⟨1, 1, 0, 0, some 100⟩ (by with_unfolding_all rfl) (by decide)


/-- C8: `remaining_credits` stays ≥ 0.  A successful redemption decrements
the selected package (which had credits > 0) by exactly one and preserves
non-negativity of every balance (given primary-key uniqueness of package
ids); redemption fails when the selected package's balance would go
negative; `adjust_client_package` fails and leaves the store unchanged when
the delta would drive the balance negative, and on success the new balance
is ≥ 0 and non-negativity of every balance is preserved. -/
theorem claim_credits_nonneg :
    (∀ (s : DaycareState) (cid : Nat) (today : ℤ) (pid : Nat)
       (s' : DaycareState),
      redeem_package_credit s cid today = .ok (pid, s') →
      package_ids_unique s →
      (∃ row ∈ s.client_packages, row.id = pid ∧ 0 < row.remaining_credits ∧
        s'.client_packages = s.client_packages.map (fun p =>
          if p.id == pid then
            { p with remaining_credits := p.remaining_credits - 1 }
          else p)) ∧
      (packages_nonneg s → packages_nonneg s')) ∧
    (∀ (s : DaycareState) (cid : Nat) (today : ℤ) (row : ClientPackage),
      select_package s cid today = some row →
      row.remaining_credits ≤ 0 →
      redeem_package_credit s cid today = .error msgNoRemainingCredits) ∧
    (∀ (s : DaycareState) (cpid : Nat) (delta : ℤ) (pkg : ClientPackage),
      get_client_package s cpid = .ok pkg →
      pkg.remaining_credits + delta < 0 →
      adjust_client_package s cpid delta = .error msgNotEnoughCredits ∧
      apply_adjust_client_package s cpid delta = s) ∧
    (∀ (s : DaycareState) (cpid : Nat) (delta : ℤ) (pkg' : ClientPackage)
       (s' : DaycareState),
      adjust_client_package s cpid delta = .ok (pkg', s') →
      0 ≤ pkg'.remaining_credits ∧
      (packages_nonneg s → packages_nonneg s')) := by
  refine ⟨?_, ?_, ?_, ?_⟩
  · intro s cid today pid s' h huniq
    obtain ⟨row, hsel, hid, hpos, hs'⟩ := redeem_package_credit_ok h
    obtain ⟨hmem, _, _⟩ := select_package_spec hsel
    subst hs'
    refine ⟨⟨row, hmem, hid, hpos, rfl⟩, ?_⟩
    intro hnn p' hp'
    change p' ∈ s.client_packages.map _ at hp'
    obtain ⟨p, hp, hfp⟩ := List.mem_map.mp hp'
    by_cases hpid : (p.id == pid) = true
    · rw [if_pos hpid] at hfp
      have hpeq : p = row := by
        by_contra hne
        have hsymm : Symmetric (fun a b : ClientPackage => a.id ≠ b.id) :=
          fun a b hab e => hab e.symm
        have huniq' : s.client_packages.Pairwise
            (fun a b : ClientPackage => a.id ≠ b.id) := huniq
        have hdiff : p.id ≠ row.id :=
          List.Pairwise.forall hsymm huniq' hp hmem hne
        exact hdiff (by rw [hid]; exact eq_of_beq hpid)
      subst hfp
      subst hpeq
      simp only []
      omega
    · rw [if_neg hpid] at hfp
      subst hfp
      exact hnn p hp
  · intro s cid today row hsel hle
    unfold redeem_package_credit
    rw [hsel]
    simp only []
    rw [if_pos hle]
  · intro s cpid delta pkg hget hneg
    have he : adjust_client_package s cpid delta = .error msgNotEnoughCredits := by
      unfold adjust_client_package
      rw [hget, except_bind_ok]
      simp only []
      rw [if_pos hneg]
    exact ⟨he, by unfold apply_adjust_client_package; rw [he]⟩
  · intro s cpid delta pkg' s' h
    unfold adjust_client_package at h
    obtain ⟨pkg, hget, h⟩ := except_bind_eq_ok h
    simp only [] at h
    split at h
    · cases h
    · rename_i hnneg
      simp only [Except.ok.injEq, Prod.mk.injEq] at h
      obtain ⟨hpkg, hs'⟩ := h
      subst hpkg
      subst hs'
      constructor
      · simp only []
        omega
      · intro hnn p' hp'
        change p' ∈ s.client_packages.map _ at hp'
        obtain ⟨p, hp, hfp⟩ := List.mem_map.mp hp'
        by_cases hpid : (p.id == cpid) = true
        · rw [if_pos hpid] at hfp
          subst hfp
          simp only []
          omega
        · rw [if_neg hpid] at hfp
          subst hfp
          exact hnn p hp

/-- C8 witness: on the two-package store, adjusting package 2 by −3 leaves a
balance of 2 ≥ 0 and preserves non-negativity of every balance. -/
theorem claim_credits_nonneg_witness :
    0 ≤ ({ id := 2, client_id := 1, remaining_credits := 2,
           purchase_date := 0, expiry_date := some 200 } :
         ClientPackage).remaining_credits ∧
    (packages_nonneg twoPackageState →
      packages_nonneg (apply_adjust_client_package twoPackageState 2 (-3))) :=
  claim_credits_nonneg.2.2.2 twoPackageState 2 (-3)
    ⟨2, 1, 2, 0, some 200⟩ (apply_adjust_client_package twoPackageState 2 (-3))
    (by with_unfolding_all rfl)

/-- C5: a successful `check_out_pet` stamps the check-out time on the pet's
check-in row (the returned row carries it and is stored); once every
check-in row of the booking carries a check-out time, the booking's status
is "completed"; while some pet of the booking remains checked in (a
check-in row without check-out time), the bookings table is untouched. -/
theorem claim_check_out_completion
    {s : DaycareState} {booking_id pet_id : Nat} {t : ℤ}
    {c : Checkin} {s' : DaycareState}
    (h : check_out_pet s booking_id pet_id t = .ok (c, s')) :
    c.check_out_time = some t ∧
    c ∈ s'.checkins ∧
    ((∀ ck ∈ checkins_of_booking s' booking_id, ck.check_out_time ≠ none) →
      ∀ b ∈ s'.bookings, b.id = booking_id → b.status = "completed") ∧
    ((∃ ck ∈ checkins_of_booking s' booking_id, ck.check_out_time = none) →
      s'.bookings = s.bookings) := by
  unfold check_out_pet at h
  cases hbp : s.booking_pets.find?
      (fun q => q.booking_id == booking_id && q.pet_id == pet_id) with
  | none => rw [hbp] at h; cases h
  | some bp =>
      rw [hbp] at h
      simp only [except_pure, except_bind_ok] at h
      cases hrow : s.checkins.find? (fun cc => cc.booking_pet_id == bp.id) with
      | none => rw [hrow] at h; cases h
      | some row =>
          rw [hrow] at h
          simp only [except_pure, except_bind_ok] at h
          simp only [Except.ok.injEq, Prod.mk.injEq] at h
          obtain ⟨hc, hs'⟩ := h
          subst hc
          have hrowmem : row ∈ s.checkins := List.mem_of_find?_eq_some hrow
          have hrowpred : (row.booking_pet_id == bp.id) = true := by
            have := List.find?_some hrow
            simpa using this
          subst hs'
          refine ⟨rfl, ?_, ?_, ?_⟩
          · have hmem2 := List.mem_map_of_mem
              (fun cc : Checkin => if (cc.booking_pet_id == bp.id) = true then
                { cc with check_out_time := some t } else cc) hrowmem
            simp only [] at hmem2
            rw [if_pos hrowpred] at hmem2
            split
            · exact hmem2
            · exact hmem2
          · split
            · rename_i hrem
              intro hall b hbmem hbid
              obtain ⟨b₀, hb₀, hfb⟩ := List.mem_map.mp hbmem
              by_cases hb₀id : (b₀.id == booking_id) = true
              · rw [if_pos hb₀id] at hfb
                subst hfb
                rfl
              · rw [if_neg hb₀id] at hfb
                subst hfb
                exact absurd (beq_iff_eq.mpr hbid) hb₀id
            · rename_i hrem
              intro hall b hbmem hbid
              exfalso
              apply hrem
              have hnil : List.filter (fun c => c.check_out_time.isNone)
                  (checkins_of_booking
                    { s with checkins := s.checkins.map (fun cc =>
                        if (cc.booking_pet_id == bp.id) = true then
                          { cc with check_out_time := some t } else cc) }
                    booking_id) = [] := by
                apply List.filter_eq_nil_iff.mpr
                intro ck hck
                have := hall ck hck
                cases hx : ck.check_out_time with
                | none => exact absurd hx this
                | some v => simp [Option.isNone, hx]
              rw [show (∀ {n : Nat}, (n == 0) = true ↔ n = 0) from
                fun {n} => beq_iff_eq]
              rw [List.length_eq_zero]
              exact hnil
          · split
            · rename_i hrem
              rintro ⟨ck, hck, hcknone⟩
              exfalso
              have hlen : List.filter (fun c => c.check_out_time.isNone)
                  (checkins_of_booking
                    { s with checkins := s.checkins.map (fun cc =>
                        if (cc.booking_pet_id == bp.id) = true then
                          { cc with check_out_time := some t } else cc) }
                    booking_id) = [] := by
                rw [← List.length_eq_zero, ← beq_iff_eq (a :=
                  (List.filter (fun c => c.check_out_time.isNone)
                    (checkins_of_booking
                      { s with checkins := s.checkins.map (fun cc =>
                          if (cc.booking_pet_id == bp.id) = true then
                            { cc with check_out_time := some t } else cc) }
                      booking_id)).length) (b := 0)]
                exact hrem
              have hckin : ck ∈ List.filter (fun c => c.check_out_time.isNone)
                  (checkins_of_booking
                    { s with checkins := s.checkins.map (fun cc =>
                        if (cc.booking_pet_id == bp.id) = true then
                          { cc with check_out_time := some t } else cc) }
                    booking_id) :=
                List.mem_filter.mpr ⟨hck, by rw [hcknone]; rfl⟩
              rw [hlen] at hckin
              cases hckin
            · intro _
              rfl


/-- C5 witness: with two pets checked in on booking 1, checking out pet 1 at
time 600 stamps its row, stores it, and (since pet 2 remains checked in)
the bookings table is unchanged. -/
theorem claim_check_out_completion_witness :
    (⟨1, 480, some 600⟩ : Checkin).check_out_time = some 600 ∧
    (⟨1, 480, some 600⟩ : Checkin) ∈
      ({ checkedInState with
          checkins := [⟨1, 480, some 600⟩, ⟨2, 480, none⟩] } :
        DaycareState).checkins ∧
    ((∀ ck ∈ checkins_of_booking
        ({ checkedInState with
            checkins := [⟨1, 480, some 600⟩, ⟨2, 480, none⟩] } :
          DaycareState) 1, ck.check_out_time ≠ none) →
      ∀ b ∈ ({ checkedInState with
          checkins := [⟨1, 480, some 600⟩, ⟨2, 480, none⟩] } :
        DaycareState).bookings, b.id = 1 → b.status = "completed") ∧
    ((∃ ck ∈ checkins_of_booking
        ({ checkedInState with
            checkins := [⟨1, 480, some 600⟩, ⟨2, 480, none⟩] } :
          DaycareState) 1, ck.check_out_time = none) →
      ({ checkedInState with
          checkins := [⟨1, 480, some 600⟩, ⟨2, 480, none⟩] } :
        DaycareState).bookings = checkedInState.bookings) :=
  @claim_check_out_completion checkedInState 1 1 600 ⟨1, 480, some 600⟩
    ({ checkedInState with
        checkins := [⟨1, 480, some 600⟩, ⟨2, 480, none⟩] })
    (by with_unfolding_all rfl)

/-- C1: every invoice generated by an admitted `create_booking` is produced
by `_create_invoice_for_booking` from the booking's pet lines and service
lines, and satisfies: `subtotal = round2(Σ pet prices + Σ price×qty)`,
`gst_amount = round2(taxable_amount × GST_RATE)` where `taxable_amount`
sums taxable pet-line prices and GST-applicable service `price×qty`, and
`total = round2(unrounded subtotal + gst_amount)` — each rounded
independently. -/
theorem claim_invoice_totals
    {s : DaycareState} {lid cid : Nat} {st en : ℤ} {pids : List Nat}
    {svcs : List ServiceReq} {dep : ℚ} {upc : Bool} {today : ℤ}
    {bid : Nat} {inv : Invoice} {s' : DaycareState}
    (h : create_booking s lid cid st en pids svcs dep upc today =
      .ok (.booked bid inv, s')) :
    ∃ (pet_prices : List PetPrice) (service_rows : List ServiceRow),
      inv = create_invoice_for_booking bid cid pet_prices service_rows dep ∧
      inv.subtotal = round2 ((pet_prices.map (·.price)).sum +
        (service_rows.map (fun r => r.price * (r.quantity : ℚ))).sum) ∧
      inv.gst_amount = round2 ((((pet_prices.filter (·.taxable)).map
          (·.price)).sum +
        ((service_rows.filter (·.gst_applicable)).map
          (fun r => r.price * (r.quantity : ℚ))).sum) * GST_RATE) ∧
      inv.total = round2 (((pet_prices.map (·.price)).sum +
        (service_rows.map (fun r => r.price * (r.quantity : ℚ))).sum) +
        inv.gst_amount) := by
  obtain ⟨location, pp, srows, s₂, s₃, hloc, hts, hvac, hcap, hbid, hb, hs,
    hinv, hstate⟩ := create_booking_booked_elim h
  obtain ⟨h1, h2, h3, _⟩ := create_invoice_fields bid cid pp srows dep
  subst hinv
  exact ⟨pp, srows, rfl, h1, h2, h3⟩

/-- C1 witness: the worked admitted booking (pets at 65 and 52, one taxable
25-dollar service) generates its invoice through
`create_invoice_for_booking` with the claimed aggregation formulas. -/
theorem claim_invoice_totals_witness :
    ∃ (pet_prices : List PetPrice) (service_rows : List ServiceRow),
      bookedInvoice = create_invoice_for_booking 1 1 pet_prices service_rows 0 ∧
      bookedInvoice.subtotal = round2 ((pet_prices.map (·.price)).sum +
        (service_rows.map (fun r => r.price * (r.quantity : ℚ))).sum) ∧
      bookedInvoice.gst_amount = round2 ((((pet_prices.filter (·.taxable)).map
          (·.price)).sum +
        ((service_rows.filter (·.gst_applicable)).map
          (fun r => r.price * (r.quantity : ℚ))).sum) * GST_RATE) ∧
      bookedInvoice.total = round2 (((pet_prices.map (·.price)).sum +
        (service_rows.map (fun r => r.price * (r.quantity : ℚ))).sum) +
        bookedInvoice.gst_amount) :=
  @claim_invoice_totals openDayState 1 1 480 1020 [1, 2] [⟨1, 1⟩] 0 false 0
    1 bookedInvoice bookedFinalState (by with_unfolding_all rfl)


theorem create_invoice_line_items (bid cid : Nat) (pp : List PetPrice)
    (sr : List ServiceRow) (dep : ℚ) :
    (create_invoice_for_booking bid cid pp sr dep).line_items =
      pp.map (fun p =>
        { description := p.description
          quantity := 1
          unit_price := round2 p.price
          gst_rate := if p.taxable then GST_RATE else 0
          total := round2 p.price : LineItem }) ++
      sr.map (fun row =>
        { description := row.description
          quantity := (row.quantity : ℚ)
          unit_price := row.price
          gst_rate := if row.gst_applicable then GST_RATE else 0
          total := round2 (row.price * (row.quantity : ℚ)) : LineItem }) := by
  unfold create_invoice_for_booking record_payment
  split <;> rfl

/-- C7: in an admitted booking without package credits, the `booking_pets`
rows appended are exactly one per requested pet in input order, priced as
`pet_line_price` (base rate for the first pet,
`round2(base × (1 − discount/100))` for each subsequent pet); one
`booking_services` row per requested service carrying the service's price
and the requested quantity; and the invoice's service line items carry
`total = round2(price × quantity)`. -/
theorem claim_line_pricing
    {s : DaycareState} {lid cid : Nat} {st en : ℤ} {pids : List Nat}
    {svcs : List ServiceReq} {dep : ℚ} {today : ℤ}
    {bid : Nat} {inv : Invoice} {s' : DaycareState} {location : Location}
    (hloc : get_location s lid = .ok location)
    (h : create_booking s lid cid st en pids svcs dep false today =
      .ok (.booked bid inv, s')) :
    s'.booking_pets = s.booking_pets ++
      expected_pet_rows location bid s.next_booking_pet_id 0 pids ∧
    List.Forall₂ (fun (req : ServiceReq) (row : BookingService) =>
      ∃ svc, get_service s req.service_id = .ok svc ∧
        row = { booking_id := bid, service_id := svc.id,
                quantity := req.quantity, price := svc.price,
                gst_applicable := svc.gst_applicable })
      svcs (s'.booking_services.drop s.booking_services.length) ∧
    List.Forall₂ (fun (req : ServiceReq) (item : LineItem) =>
      ∃ svc, get_service s req.service_id = .ok svc ∧
        item.quantity = (req.quantity : ℚ) ∧ item.unit_price = svc.price ∧
        item.total = round2 (svc.price * (req.quantity : ℚ)))
      svcs (inv.line_items.drop pids.length) := by
  obtain ⟨location', pp, srows, s₂, s₃, hloc2, hts2, hvac2, hcap2, hbid,
    hb2, hs2, hinv2, hstate⟩ := create_booking_booked_elim h
  rw [hloc] at hloc2
  have hloceq : location' = location := by
    cases hloc2
    rfl
  subst hloceq
  obtain ⟨hlen, hchar⟩ := build_pet_lines_no_credit _ _ _ _ _ _ _ _ hb2
  obtain ⟨hfa, rows, hst3, hrows⟩ := build_service_rows_spec _ _ _ _ hs2
  simp only [] at hlen hchar hst3
  subst hstate
  have hbs : s₃.booking_services = s.booking_services ++ rows := by
    rw [hst3, hchar]
  have hrows' : List.Forall₂ (fun (req : ServiceReq) (row : BookingService) =>
      ∃ svc, get_service s req.service_id = .ok svc ∧
        row = { booking_id := bid, service_id := svc.id,
                quantity := req.quantity, price := svc.price,
                gst_applicable := svc.gst_applicable }) svcs rows := by
    rw [hchar] at hrows
    exact hrows
  have hfa' : List.Forall₂ (fun (req : ServiceReq) (sr : ServiceRow) =>
      ∃ svc, get_service s req.service_id = .ok svc ∧
        sr = { description := svc.name, price := svc.price,
               quantity := req.quantity,
               gst_applicable := svc.gst_applicable }) svcs srows := by
    rw [hchar] at hfa
    exact hfa
  refine ⟨?_, ?_, ?_⟩
  · change s₃.booking_pets = _
    rw [hst3, hchar]
  · change List.Forall₂ _ svcs
      (s₃.booking_services.drop s.booking_services.length)
    rw [hbs, List.drop_left]
    exact hrows'
  · subst hinv2
    rw [create_invoice_line_items]
    have hplen : pids.length = (pp.map (fun p =>
        { description := p.description
          quantity := 1
          unit_price := round2 p.price
          gst_rate := if p.taxable then GST_RATE else 0
          total := round2 p.price : LineItem })).length := by
      rw [List.length_map]
      exact hlen.symm
    rw [hplen, List.drop_left]
    rw [List.forall₂_map_right_iff]
    refine hfa'.imp ?_
    intro req sr hsr
    obtain ⟨svc, hsvc, hsr⟩ := hsr
    subst hsr
    exact ⟨svc, hsvc, rfl, rfl, rfl⟩


/-- C7 witness: the worked admitted booking appends the two expected
`booking_pets` rows (65 and the discounted-rounded 52) and the grooming
service row and line item. -/
theorem claim_line_pricing_witness :
    bookedFinalState.booking_pets = openDayState.booking_pets ++
      expected_pet_rows exLocation 1 openDayState.next_booking_pet_id 0
        [1, 2] ∧
    List.Forall₂ (fun (req : ServiceReq) (row : BookingService) =>
      ∃ svc, get_service openDayState req.service_id = .ok svc ∧
        row = { booking_id := 1, service_id := svc.id,
                quantity := req.quantity, price := svc.price,
                gst_applicable := svc.gst_applicable })
      [⟨1, 1⟩]
      (bookedFinalState.booking_services.drop
        openDayState.booking_services.length) ∧
    List.Forall₂ (fun (req : ServiceReq) (item : LineItem) =>
      ∃ svc, get_service openDayState req.service_id = .ok svc ∧
        item.quantity = (req.quantity : ℚ) ∧ item.unit_price = svc.price ∧
        item.total = round2 (svc.price * (req.quantity : ℚ)))
      [⟨1, 1⟩]
      (bookedInvoice.line_items.drop ([1, 2] : List Nat).length) :=
  @claim_line_pricing openDayState 1 1 480 1020 [1, 2] [⟨1, 1⟩] 0 0
    1 bookedInvoice bookedFinalState exLocation rfl
    (by with_unfolding_all rfl)

end DoggyDaycare
